import Mathlib

/-!
Shallow embedding of `src/eval/mof_reconstruction.py`.

The module converts per-sample array bundles (fractional coordinates, atomic
numbers, lattice lengths and angles, a sample index) into crystal structures,
pairs predictions with ground truths positionally, queries an external
structure matcher per pair, and aggregates a match rate and an RMSD
distribution.

Modelling conventions:
- Python exceptions are an `Except PyErr` result; a bare `try/except` is a
  `match` on the result of the guarded block.
- Numpy arrays appearing in bundles are modelled as rational-number lists that
  are already one-dimensional (`squeeze().tolist()` is the identity on them);
  a Python dict that may lack a key is a record of `Option` fields, and a
  lookup on a missing key is a `KeyError`.
- Python `n * list` is list repetition; this matters in the sentinel branch of
  `array_dict_to_structure`, where `100 * np.ones_like(x.lengths).squeeze().tolist()`
  repeats the ones list 100 times.
- `pymatgen.Lattice.from_parameters` takes exactly six positional numbers and
  raises a `TypeError` on any other arity; the `pymatgen.Structure` constructor
  is modelled by its observable success conditions: as many species as sites,
  three fractional coordinates per site, and the species atomic numbers in the
  periodic-table range 1..118 (anything else raises).
- The external `StructureMatcher.get_rms_dist` call is a parameter (`Oracle`):
  it may raise, return `None`, or return a tuple of floats whose first
  component is the RMS distance.
- torch tensors of distances are lists of `Dist` (a float that is either
  finite or `inf`); the CIF-export side channel (`save=True`) and the tqdm
  progress bars are omitted, as is the wandb table object itself: the report
  builder returns the list of rows it would append.
-/

namespace MOFRecon

/-- Python exception kinds observable in this module. -/
inductive PyErr where
  | keyError
  | typeError
  | valueError
  | assertionError
  | indexError
  | attributeError
deriving DecidableEq, Repr

/-- A per-sample array bundle (`Dict[str, np.array]`); `Option` marks keys that
may be absent from the dict. -/
structure ArrayDict where
  frac_coords? : Option (List (List ℚ))
  atom_types? : Option (List ℤ)
  lengths? : Option (List ℚ)
  angles? : Option (List ℚ)
  sample_idx? : Option ℤ
deriving DecidableEq, Repr

/-- `pymatgen.core.lattice.Lattice`: three edge lengths and three angles. -/
structure Lattice where
  lengths : List ℚ
  angles : List ℚ
deriving DecidableEq, Repr

/-- `pymatgen.core.structure.Structure` restricted to the fields this module
reads; `sample_idx` and `valid` model the `properties` entries it sets. -/
structure PyStructure where
  lattice_lengths : List ℚ
  lattice_angles : List ℚ
  species : List ℤ
  frac_coords : List (List ℚ)
  sample_idx : ℤ
  valid : Bool
deriving DecidableEq, Repr

/-- A Python float distance: finite or `float(\x22inf\x22)`. -/
inductive Dist where
  | inf : Dist
  | fin : ℚ → Dist
deriving DecidableEq, Repr

def Dist.isInf : Dist → Bool
  | Dist.inf => true
  | Dist.fin _ => false

def Dist.toFin? : Dist → Option ℚ
  | Dist.inf => none
  | Dist.fin q => some q

/-- Dict lookup `x[key]`: `KeyError` when the key is absent. -/
def dictGet {α : Type} (v : Option α) : Except PyErr α :=
  match v with
  | some a => Except.ok a
  | none => Except.error PyErr.keyError

/-- List indexing `l[i]`: `IndexError` out of range. -/
def listIndex {α : Type} (l : List α) (i : ℕ) : Except PyErr α :=
  match l.get? i with
  | some a => Except.ok a
  | none => Except.error PyErr.indexError

/-- A Python `assert`. -/
def pyAssert (p : Prop) [Decidable p] : Except PyErr Unit :=
  if p then Except.ok () else Except.error PyErr.assertionError

/-- Python `n * l` on a list: the list repeated `n` times. -/
def pyListMul {α : Type} (n : ℕ) (l : List α) : List α :=
  (List.replicate n l).flatten

/-- Left-to-right map that propagates the first raised exception, as a Python
loop or `joblib` map over a fallible function does. -/
def mapExcept {α β ε : Type} (f : α → Except ε β) : List α → Except ε (List β)
  | [] => Except.ok []
  | a :: l =>
    match f a with
    | Except.error e => Except.error e
    | Except.ok b =>
      match mapExcept f l with
      | Except.error e => Except.error e
      | Except.ok bs => Except.ok (b :: bs)

/-- `Lattice.from_parameters(*args)`: exactly six positional numbers build a
lattice; any other count raises a `TypeError`. -/
def Lattice.from_parameters (args : List ℚ) : Except PyErr Lattice :=
  match args with
  | [a, b, c, alpha, beta, gamma] => Except.ok ⟨[a, b, c], [alpha, beta, gamma]⟩
  | _ => Except.error PyErr.typeError

/-- The `Structure(lattice=..., species=..., coords=..., coords_are_cartesian=False)`
constructor, by its observable success conditions (site/species counts agree,
sites are 3-vectors, atomic numbers name real elements). -/
def mkStructure (lat : Lattice) (species : List ℤ) (coords : List (List ℚ)) :
    Except PyErr PyStructure :=
  if species.length = coords.length then
    if species.all (fun z => 1 ≤ z && z ≤ 118) then
      if coords.all (fun c => c.length = 3) then
        Except.ok ⟨lat.lengths, lat.angles, species, coords, 0, true⟩
      else Except.error PyErr.valueError
    else Except.error PyErr.valueError
  else Except.error PyErr.valueError

/-- The `try` block of `array_dict_to_structure` (with `save=False`). -/
def tryBranch (x : ArrayDict) : Except PyErr PyStructure := do
  let frac_coords ← dictGet x.frac_coords?
  let atom_types ← dictGet x.atom_types?
  let lengths ← dictGet x.lengths?
  let angles ← dictGet x.angles?
  let sample_idx ← dictGet x.sample_idx?
  let lat ← Lattice.from_parameters (lengths ++ angles)
  let s ← mkStructure lat atom_types frac_coords
  return { s with sample_idx := sample_idx, valid := true }

/-- The `except` block: builds the absurd sentinel MOF. `np.zeros_like` and
`np.ones_like` keep the input's shape; the `100 *` and `90 *` then multiply
the Python lists produced by `tolist()`, i.e. repeat them. An exception raised
here propagates to the caller. -/
def exceptBranch (x : ArrayDict) : Except PyErr PyStructure := do
  let fc ← dictGet x.frac_coords?
  let frac_coords := fc.map (fun row => row.map (fun _ => (0 : ℚ)))
  let ats ← dictGet x.atom_types?
  let atom_types := ats.map (fun _ => (0 : ℤ))
  let lens ← dictGet x.lengths?
  let lengths := pyListMul 100 (lens.map (fun _ => (1 : ℚ)))
  let angs ← dictGet x.angles?
  let angles := pyListMul 90 (angs.map (fun _ => (1 : ℚ)))
  let sample_idx ← dictGet x.sample_idx?
  let lat ← Lattice.from_parameters (lengths ++ angles)
  let s ← mkStructure lat atom_types frac_coords
  return { s with sample_idx := sample_idx, valid := false }

/-- `array_dict_to_structure(x, save=False)`: run the `try` block; on any
exception run the `except` block, whose own exceptions propagate. -/
def array_dict_to_structure (x : ArrayDict) : Except PyErr PyStructure :=
  match tryBranch x with
  | Except.ok s => Except.ok s
  | Except.error _ => exceptBranch x

/-- The external `StructureMatcher.get_rms_dist` collaborator: may raise, may
return `None`, or returns a tuple of floats whose head is the RMS distance. -/
abbrev Oracle : Type := PyStructure → PyStructure → Except PyErr (Option (List ℚ))

/-- The mutable fields of `MOFReconstructionEvaluator`. `rms_dists` is `none`
until `get_metrics` first assigns it (reading it before that raises
`AttributeError`); note that `clear` does not reset it. -/
structure EvalState where
  pred_arrays_list : List ArrayDict
  gt_arrays_list : List ArrayDict
  pred_mof_list : List PyStructure
  gt_mof_list : List PyStructure
  rms_dists : Option (List Dist)
deriving DecidableEq, Repr

/-- `MOFReconstructionEvaluator.__init__`: all four lists empty, `rms_dists`
not yet defined. -/
def mkEvaluator : EvalState := ⟨[], [], [], [], none⟩

/-- `append_pred_array`. -/
def append_pred_array (st : EvalState) (pred : ArrayDict) : EvalState :=
  { st with pred_arrays_list := st.pred_arrays_list ++ [pred] }

/-- `append_gt_array`. -/
def append_gt_array (st : EvalState) (gt : ArrayDict) : EvalState :=
  { st with gt_arrays_list := st.gt_arrays_list ++ [gt] }

/-- `clear`: empties the four lists (and only them). -/
def clear (st : EvalState) : EvalState :=
  { st with
    pred_arrays_list := []
    gt_arrays_list := []
    pred_mof_list := []
    gt_mof_list := [] }

/-- `_get_metrics(pred, gt, is_valid)`: invalid pairs get `inf` without calling
the matcher; otherwise every matcher failure mode (exception, `None`, empty
tuple) is absorbed to `inf`, and a nonempty tuple yields its first component. -/
def _get_metrics (oracle : Oracle) (pred gt : PyStructure) (is_valid : Bool) : Dist :=
  if !is_valid then Dist.inf
  else
    match oracle pred gt with
    | Except.error _ => Dist.inf
    | Except.ok none => Dist.inf
    | Except.ok (some []) => Dist.inf
    | Except.ok (some (d :: _)) => Dist.fin d

/-- The validity zip and per-index distance loop of `get_metrics` (at this
point the two structure lists have equal length, so indexing `range(len(pred))`
into both lists is the zip). -/
def distLoop (oracle : Oracle) (preds gts : List PyStructure) : List Dist :=
  (preds.zip gts).map (fun pg => _get_metrics oracle pg.1 pg.2 (pg.1.valid && pg.2.valid))

/-- The dictionary returned by `get_metrics`. -/
structure Metrics where
  match_rate : List ℕ
  rms_dist : List ℚ
deriving DecidableEq, Repr

/-- The aggregation tail of `get_metrics`: `match_rate` marks finite distances
with 1; if no distance is finite, `rms_dist` is `[10.0] * len(match_rate)`,
otherwise it keeps exactly the finite distances in order. -/
def aggregate (dists : List Dist) : Metrics :=
  let match_rate := dists.map (fun d => if d.isInf then 0 else 1)
  let finites := dists.filterMap Dist.toFin?
  if finites.length = 0 then ⟨match_rate, List.replicate match_rate.length (10 : ℚ)⟩
  else ⟨match_rate, finites⟩

/-- `get_metrics(save=False)`: assert equal list lengths, convert both bundle
lists through `array_dict_to_structure` (a raised conversion error propagates,
leaving the fields assigned so far), run the distance loop, store `rms_dists`,
and return the aggregated metrics. -/
def get_metrics (oracle : Oracle) (st : EvalState) : EvalState × Except PyErr Metrics :=
  if st.pred_arrays_list.length = st.gt_arrays_list.length then
    match mapExcept array_dict_to_structure st.pred_arrays_list with
    | Except.error e => (st, Except.error e)
    | Except.ok preds =>
      match mapExcept array_dict_to_structure st.gt_arrays_list with
      | Except.error e => ({ st with pred_mof_list := preds }, Except.error e)
      | Except.ok gts =>
        let dists := distLoop oracle preds gts
        ({ st with pred_mof_list := preds, gt_mof_list := gts, rms_dists := some dists },
          Except.ok (aggregate dists))
  else (st, Except.error PyErr.assertionError)

/-- Reading `self.rms_dists` (an `AttributeError` before `get_metrics` ever
assigned it). -/
def getRmsDists (st : EvalState) : Except PyErr (List Dist) :=
  match st.rms_dists with
  | some l => Except.ok l
  | none => Except.error PyErr.attributeError

/-- One row of the wandb table, in the column order of the source. The two
image cells record the external renderer's output or `none` when it raised. -/
structure Row where
  epoch : ℤ
  sample_idx : ℤ
  num_atoms : ℕ
  rmsd : Dist
  matched : Bool
  valid : Bool
  true_atom_types : String
  pred_atom_types : String
  true_lengths : String
  pred_lengths : String
  true_angles : String
  pred_angles : String
  true_2d : Option ℤ
  pred_2d : Option ℤ
deriving DecidableEq, Repr

/-- The body of the table loop after the sample-index assertion, in source
order. `fmt2` models the Python float formatting of the 2-decimal f-string and
`render` the external `ase_view.make_wandb_image` call, whose failures are
absorbed to `None`. -/
def rowBody (fmt2 : ℚ → String) (render : PyStructure → Except Unit ℤ)
    (current_epoch : ℤ) (st : EvalState) (idx : ℕ)
    (gt_mof pred_mof : PyStructure) : Except PyErr Row := do
  let pred_arr ← listIndex st.pred_arrays_list idx
  let pred_atom_arr ← dictGet pred_arr.atom_types?
  let num_atoms := pred_atom_arr.length
  let rms_list ← getRmsDists st
  let rmsd ← listIndex rms_list idx
  let matched := !rmsd.isInf
  let gt_arr ← listIndex st.gt_arrays_list idx
  let gt_atom_arr ← dictGet gt_arr.atom_types?
  let true_atom_types := String.intercalate " " (gt_atom_arr.map (fun t => toString t))
  let pred_atom_types := String.intercalate " " (pred_atom_arr.map (fun t => toString t))
  let gt_len_arr ← dictGet gt_arr.lengths?
  let true_lengths := String.intercalate " " (gt_len_arr.map fmt2)
  let gt_ang_arr ← dictGet gt_arr.angles?
  let true_angles := String.intercalate " " (gt_ang_arr.map fmt2)
  let pred_len_arr ← dictGet pred_arr.lengths?
  let pred_lengths := String.intercalate " " (pred_len_arr.map fmt2)
  let pred_ang_arr ← dictGet pred_arr.angles?
  let pred_angles := String.intercalate " " (pred_ang_arr.map fmt2)
  let true_2d := match render gt_mof with
    | Except.ok img => some img
    | Except.error _ => none
  let pred_2d := match render pred_mof with
    | Except.ok img => some img
    | Except.error _ => none
  return {
    epoch := current_epoch
    sample_idx := gt_mof.sample_idx
    num_atoms := num_atoms
    rmsd := rmsd
    matched := matched
    valid := pred_mof.valid
    true_atom_types := true_atom_types
    pred_atom_types := pred_atom_types
    true_lengths := true_lengths
    pred_lengths := pred_lengths
    true_angles := true_angles
    pred_angles := pred_angles
    true_2d := true_2d
    pred_2d := pred_2d }

/-- One iteration of the `get_wandb_table` loop: read the ground-truth and
prediction structures at `idx`, assert their `sample_idx` agree, then build
the row. -/
def rowAt (fmt2 : ℚ → String) (render : PyStructure → Except Unit ℤ)
    (current_epoch : ℤ) (st : EvalState) (idx : ℕ) : Except PyErr Row :=
  match listIndex st.gt_mof_list idx with
  | Except.error e => Except.error e
  | Except.ok gt_mof =>
    match listIndex st.pred_mof_list idx with
    | Except.error e => Except.error e
    | Except.ok pred_mof =>
      if gt_mof.sample_idx = pred_mof.sample_idx then
        rowBody fmt2 render current_epoch st idx gt_mof pred_mof
      else Except.error PyErr.assertionError

/-- `get_wandb_table(current_epoch)`: one row per index of `pred_mof_list`,
stopping at the first raised exception. -/
def get_wandb_table (fmt2 : ℚ → String) (render : PyStructure → Except Unit ℤ)
    (current_epoch : ℤ) (st : EvalState) : Except PyErr (List Row) :=
  mapExcept (rowAt fmt2 render current_epoch st) (List.range st.pred_mof_list.length)

/-! Concrete inputs used by the witnesses and counterexamples. -/

/-- A well-formed bundle: one carbon site, a cubic 5-Angstrom cell. -/
def goodBundle : ArrayDict :=
  ⟨some [[0, 0, 0]], some [6], some [5, 5, 5], some [90, 90, 90], some 42⟩

/-- The structure `array_dict_to_structure` builds from `goodBundle`. -/
def goodStruct : PyStructure :=
  ⟨[5, 5, 5], [90, 90, 90], [6], [[0, 0, 0]], 42, true⟩

/-- A malformed bundle: `lengths` has arity two, so the lattice construction
in the `try` block raises. -/
def badBundleC1 : ArrayDict :=
  ⟨some [[1/2, 1/2, 1/2]], some [6], some [1, 1], some [90, 90, 90], some 7⟩

/-- A second well-formed bundle (two helium sites, sample index 11). -/
def goodBundle2 : ArrayDict :=
  ⟨some [[0, 0, 0], [1/2, 1/2, 1/2]], some [2, 2], some [4, 4, 4], some [90, 90, 120], some 11⟩

/-- The structure `array_dict_to_structure` builds from `goodBundle2`. -/
def goodStruct2 : PyStructure :=
  ⟨[4, 4, 4], [90, 90, 120], [2, 2], [[0, 0, 0], [1/2, 1/2, 1/2]], 11, true⟩

/-- A malformed bundle: `lengths` has arity four. -/
def badBundleC2 : ArrayDict :=
  ⟨some [[0, 0, 0]], some [8], some [3, 3, 3, 3], some [90, 90, 90], some 5⟩

/-- An oracle that always reports no match. -/
def oracleNone : Oracle := fun _ _ => Except.ok none

/-- An oracle that always raises. -/
def oracleRaise : Oracle := fun _ _ => Except.error PyErr.valueError

/-- An oracle that always matches with RMS distance 3/2 (and max distance 2). -/
def oracleHit : Oracle := fun _ _ => Except.ok (some [3/2, 2])

/-- An evaluator state holding one well-formed prediction/ground-truth pair. -/
def stGoodPair : EvalState := ⟨[goodBundle], [goodBundle], [], [], none⟩

/-- An evaluator state whose single prediction bundle is malformed. -/
def stBadPred : EvalState := ⟨[badBundleC1], [goodBundle], [], [], none⟩

/-- An evaluator state with one prediction and no ground truth. -/
def stMismatch : EvalState := ⟨[goodBundle], [], [], [], none⟩

/-- A trivial float formatter for the report builder. -/
def fmt0 : ℚ → String := fun _ => "0.00"

/-- A renderer that always fails. -/
def render0 : PyStructure → Except Unit ℤ := fun _ => Except.error ()

/-- `goodStruct` relabelled with a different sample index. -/
def goodStruct7 : PyStructure := { goodStruct with sample_idx := 7 }

/-- A scored state whose structure lists disagree on `sample_idx` at index 0. -/
def stBadIdx : EvalState :=
  ⟨[goodBundle], [goodBundle], [goodStruct], [goodStruct7], some [Dist.inf]⟩

/-- A scored state whose structure lists agree on `sample_idx`. -/
def stOkIdx : EvalState :=
  ⟨[goodBundle], [goodBundle], [goodStruct], [goodStruct], some [Dist.inf]⟩

/-! Helper lemmas. -/

theorem mapExcept_length {α β ε : Type} {f : α → Except ε β} :
    ∀ {l : List α} {ys : List β}, mapExcept f l = Except.ok ys → ys.length = l.length := by
  intro l
  induction l with
  | nil =>
    intro ys h
    unfold mapExcept at h
    cases h
    rfl
  | cons a l ih =>
    intro ys h
    unfold mapExcept at h
    cases hfa : f a with
    | error e => rw [hfa] at h; cases h
    | ok b =>
      rw [hfa] at h
      cases hrest : mapExcept f l with
      | error e => rw [hrest] at h; cases h
      | ok bs =>
        rw [hrest] at h
        cases h
        simp [ih hrest]

theorem mapExcept_ok_mem {α β ε : Type} {f : α → Except ε β} :
    ∀ {l : List α} {ys : List β}, mapExcept f l = Except.ok ys →
      ∀ a ∈ l, ∃ b, f a = Except.ok b := by
  intro l
  induction l with
  | nil =>
    intro ys _ a ha
    cases ha
  | cons x xs ih =>
    intro ys h a ha
    unfold mapExcept at h
    cases hfx : f x with
    | error e => rw [hfx] at h; cases h
    | ok b =>
      rw [hfx] at h
      cases hrest : mapExcept f xs with
      | error e => rw [hrest] at h; cases h
      | ok bs =>
        cases ha with
        | head => exact ⟨b, hfx⟩
        | tail _ hmem => exact ih hrest a hmem

theorem get?_some_lt {α : Type} : ∀ {l : List α} {i : ℕ} {a : α},
    l.get? i = some a → i < l.length := by
  intro l
  induction l with
  | nil => intro i a h; cases h
  | cons x xs ih =>
    intro i a h
    cases i with
    | zero => exact Nat.succ_pos _
    | succ j => exact Nat.succ_lt_succ (ih h)

theorem listIndex_of_get? {α : Type} {l : List α} {i : ℕ} {a : α}
    (h : l.get? i = some a) : listIndex l i = Except.ok a := by
  unfold listIndex
  rw [h]

theorem distLoop_length (oracle : Oracle) {preds gts : List PyStructure}
    (h : preds.length = gts.length) : (distLoop oracle preds gts).length = preds.length := by
  unfold distLoop
  rw [List.length_map, List.length_zip, h, Nat.min_self]

theorem filterMap_toFin_eq_nil {dists : List Dist}
    (h : ∀ d ∈ dists, d = Dist.inf) : dists.filterMap Dist.toFin? = [] := by
  rw [List.filterMap_eq_nil_iff]
  intro d hd
  rw [h d hd]
  rfl

theorem length_filterMap_toFin (dists : List Dist) :
    (dists.filterMap Dist.toFin?).length = dists.countP (fun d => !d.isInf) := by
  induction dists with
  | nil => rfl
  | cons d rest ih =>
    cases d with
    | inf => simpa [List.filterMap_cons, List.countP_cons, Dist.toFin?, Dist.isInf] using ih
    | fin q => simpa [List.filterMap_cons, List.countP_cons, Dist.toFin?, Dist.isInf] using ih

theorem get_metrics_ok (oracle : Oracle) (st : EvalState)
    {preds gts : List PyStructure}
    (hlen : st.pred_arrays_list.length = st.gt_arrays_list.length)
    (hp : mapExcept array_dict_to_structure st.pred_arrays_list = Except.ok preds)
    (hg : mapExcept array_dict_to_structure st.gt_arrays_list = Except.ok gts) :
    get_metrics oracle st =
      ({ st with
          pred_mof_list := preds
          gt_mof_list := gts
          rms_dists := some (distLoop oracle preds gts) },
        Except.ok (aggregate (distLoop oracle preds gts))) := by
  unfold get_metrics
  rw [if_pos hlen, hp, hg]

theorem aggregate_match_rate (dists : List Dist) :
    (aggregate dists).match_rate = dists.map (fun d => if d.isInf then 0 else 1) := by
  simp only [aggregate]
  by_cases hc : (dists.filterMap Dist.toFin?).length = 0
  · rw [if_pos hc]
  · rw [if_neg hc]

theorem aggregate_rms_sentinel (dists : List Dist)
    (h : (dists.filterMap Dist.toFin?).length = 0) :
    (aggregate dists).rms_dist = List.replicate dists.length (10 : ℚ) := by
  simp only [aggregate]
  rw [if_pos h]
  simp [List.length_map]

theorem aggregate_rms_finite (dists : List Dist)
    (h : ¬ (dists.filterMap Dist.toFin?).length = 0) :
    (aggregate dists).rms_dist = dists.filterMap Dist.toFin? := by
  simp only [aggregate]
  rw [if_neg h]

theorem get_metrics_fst_arrays (oracle : Oracle) (st : EvalState) :
    ((get_metrics oracle st).1).pred_arrays_list = st.pred_arrays_list
    ∧ ((get_metrics oracle st).1).gt_arrays_list = st.gt_arrays_list := by
  unfold get_metrics
  by_cases hlen : st.pred_arrays_list.length = st.gt_arrays_list.length
  · simp only [if_pos hlen]
    cases hp : mapExcept array_dict_to_structure st.pred_arrays_list with
    | error e => exact ⟨rfl, rfl⟩
    | ok preds =>
      cases hg : mapExcept array_dict_to_structure st.gt_arrays_list with
      | error e => exact ⟨rfl, rfl⟩
      | ok gts => exact ⟨rfl, rfl⟩
  · rw [if_neg hlen]
    exact ⟨rfl, rfl⟩

theorem get_metrics_snd_congr (oracle : Oracle) (s1 s2 : EvalState)
    (h1 : s1.pred_arrays_list = s2.pred_arrays_list)
    (h2 : s1.gt_arrays_list = s2.gt_arrays_list) :
    (get_metrics oracle s1).2 = (get_metrics oracle s2).2 := by
  unfold get_metrics
  rw [h1, h2]
  by_cases hlen : s2.pred_arrays_list.length = s2.gt_arrays_list.length
  · simp only [if_pos hlen]
    cases hp : mapExcept array_dict_to_structure s2.pred_arrays_list with
    | error e => rfl
    | ok preds =>
      cases hg : mapExcept array_dict_to_structure s2.gt_arrays_list with
      | error e => rfl
      | ok gts => rfl
  · simp only [if_neg hlen]

/-! Claim theorems. -/

/-- C1: the claim says `array_dict_to_structure` is total and absorbs every
construction failure into a sentinel structure. In the code the sentinel
branch multiplies the Python lists produced by `tolist()` (list repetition),
so `Lattice.from_parameters` is called with hundreds of positional arguments
and the `except` block itself raises a `TypeError` that propagates: on the
bundle below (whose `lengths` has arity two) the function raises instead of
returning a structure. -/
theorem c1_builder_raises_on_failure :
    array_dict_to_structure badBundleC1 = Except.error PyErr.typeError := rfl

/-- C2: the claim says failed constructions yield a sentinel structure with
lengths 100, angles 90, zeroed sites, `valid = false` and the bundle's
`sample_idx`. No failing bundle ever produces that sentinel - the `except`
block raises a `TypeError` (shown on a bundle with `lengths` of arity four) -
while the success half of the claim does hold: a bundle that builds yields
`valid = true` and the bundle's `sample_idx`. -/
theorem c2_sentinel_never_built :
    array_dict_to_structure badBundleC2 = Except.error PyErr.typeError
    ∧ array_dict_to_structure goodBundle2 = Except.ok goodStruct2
    ∧ goodStruct2.valid = true
    ∧ goodBundle2.sample_idx? = some goodStruct2.sample_idx :=
  ⟨rfl, rfl, rfl, rfl⟩

/-- C3: when the prediction and ground-truth lists have different lengths,
`get_metrics` raises its `AssertionError` first thing, before any conversion,
and the evaluator state (converted-structure lists included) is unchanged. -/
theorem c3_mismatch_asserts_before_work (oracle : Oracle) (st : EvalState)
    (h : ¬ st.pred_arrays_list.length = st.gt_arrays_list.length) :
    get_metrics oracle st = (st, Except.error PyErr.assertionError) := by
  unfold get_metrics
  rw [if_neg h]

/-- Witness for C3 at a state with one prediction and no ground truth. -/
theorem c3_witness :
    ¬ stMismatch.pred_arrays_list.length = stMismatch.gt_arrays_list.length
    ∧ get_metrics oracleNone stMismatch = (stMismatch, Except.error PyErr.assertionError) :=
  ⟨by decide, c3_mismatch_asserts_before_work oracleNone stMismatch (by decide)⟩

/-- C4 (amended): with equally many prediction and ground-truth bundles, and
provided every bundle's structure conversion succeeds (which the broken
sentinel branch of the builder can prevent - see the counterexample),
`get_metrics` returns a `match_rate` of length N whose i-th entry is 1 when
`distance[i]` is finite and 0 otherwise. -/
theorem c4_match_rate_of_conversion_ok (oracle : Oracle) (st : EvalState)
    {preds gts : List PyStructure}
    (hlen : st.pred_arrays_list.length = st.gt_arrays_list.length)
    (hp : mapExcept array_dict_to_structure st.pred_arrays_list = Except.ok preds)
    (hg : mapExcept array_dict_to_structure st.gt_arrays_list = Except.ok gts) :
    ∃ m : Metrics, (get_metrics oracle st).2 = Except.ok m
      ∧ m.match_rate.length = st.pred_arrays_list.length
      ∧ ∀ i : ℕ, m.match_rate.get? i =
          ((distLoop oracle preds gts).get? i).map (fun d => if d.isInf then 0 else 1) := by
  refine ⟨aggregate (distLoop oracle preds gts), ?_, ?_, ?_⟩
  · rw [get_metrics_ok oracle st hlen hp hg]
  · rw [aggregate_match_rate, List.length_map, distLoop_length oracle
      (by rw [mapExcept_length hp, mapExcept_length hg, hlen]), mapExcept_length hp]
  · intro i
    rw [aggregate_match_rate, List.get?_map]

/-- C4 counterexample: a run with one prediction bundle and one ground-truth
bundle (equal lengths) on which `get_metrics` propagates the builder's
`TypeError` instead of returning a `match_rate` of length one. -/
theorem c4_counterexample :
    stBadPred.pred_arrays_list.length = stBadPred.gt_arrays_list.length
    ∧ (get_metrics oracleNone stBadPred).2 = Except.error PyErr.typeError :=
  ⟨rfl, rfl⟩

/-- Witness for C4 (amended) at a one-pair state whose oracle reports no
match. -/
theorem c4_witness :
    ∃ m : Metrics, (get_metrics oracleNone stGoodPair).2 = Except.ok m
      ∧ m.match_rate.length = stGoodPair.pred_arrays_list.length
      ∧ ∀ i : ℕ, m.match_rate.get? i =
          ((distLoop oracleNone [goodStruct] [goodStruct]).get? i).map
            (fun d => if d.isInf then 0 else 1) :=
  c4_match_rate_of_conversion_ok oracleNone stGoodPair rfl rfl rfl

/-- C5: per-pair distance handling. An invalid pair gets distance `inf` and
the result does not depend on the oracle at all (the matcher is not invoked);
for a valid pair an oracle exception or a `None` result is absorbed to `inf`,
and a tuple result contributes its first component; and once conversion has
succeeded, `get_metrics` always returns metrics - no per-pair distance failure
propagates out of it. -/
theorem c5_distance_failures_absorbed (oracle oracle2 : Oracle) (pred gt : PyStructure) :
    (_get_metrics oracle pred gt false = Dist.inf
      ∧ _get_metrics oracle pred gt false = _get_metrics oracle2 pred gt false)
    ∧ (pred.valid = false ∨ gt.valid = false →
        _get_metrics oracle pred gt (pred.valid && gt.valid) = Dist.inf)
    ∧ (∀ e, oracle pred gt = Except.error e → _get_metrics oracle pred gt true = Dist.inf)
    ∧ (oracle pred gt = Except.ok none → _get_metrics oracle pred gt true = Dist.inf)
    ∧ (∀ d rest, oracle pred gt = Except.ok (some (d :: rest)) →
        _get_metrics oracle pred gt true = Dist.fin d)
    ∧ (∀ st : EvalState, ∀ preds gts : List PyStructure,
        st.pred_arrays_list.length = st.gt_arrays_list.length →
        mapExcept array_dict_to_structure st.pred_arrays_list = Except.ok preds →
        mapExcept array_dict_to_structure st.gt_arrays_list = Except.ok gts →
        ∃ m : Metrics, (get_metrics oracle st).2 = Except.ok m) := by
  refine ⟨⟨rfl, rfl⟩, ?_, ?_, ?_, ?_, ?_⟩
  · intro h
    have hfalse : (pred.valid && gt.valid) = false := by
      rcases h with h | h <;> simp [h]
    rw [hfalse]
    rfl
  · intro e he
    unfold _get_metrics
    rw [he]
    rfl
  · intro he
    unfold _get_metrics
    rw [he]
    rfl
  · intro d rest he
    unfold _get_metrics
    rw [he]
    rfl
  · intro st preds gts hlen hp hg
    exact ⟨aggregate (distLoop oracle preds gts), by rw [get_metrics_ok oracle st hlen hp hg]⟩

/-- Witness for C5: a raising oracle on a valid pair is absorbed to `inf`. -/
theorem c5_witness : _get_metrics oracleRaise goodStruct goodStruct true = Dist.inf :=
  (c5_distance_failures_absorbed oracleRaise oracleNone goodStruct goodStruct).2.2.1
    PyErr.valueError rfl

/-- C6: when no pair has a finite distance, `get_metrics` returns an
`rms_dist` of the same length N as the number of pairs, every entry being the
sentinel 10.0 (stated under the hypothesis that conversion itself succeeded,
which the premise "every pair got a distance" presupposes). -/
theorem c6_all_unmatched_sentinel (oracle : Oracle) (st : EvalState)
    {preds gts : List PyStructure}
    (hlen : st.pred_arrays_list.length = st.gt_arrays_list.length)
    (hp : mapExcept array_dict_to_structure st.pred_arrays_list = Except.ok preds)
    (hg : mapExcept array_dict_to_structure st.gt_arrays_list = Except.ok gts)
    (hall : ∀ d ∈ distLoop oracle preds gts, d = Dist.inf) :
    ∃ m : Metrics, (get_metrics oracle st).2 = Except.ok m
      ∧ m.rms_dist = List.replicate st.pred_arrays_list.length (10 : ℚ)
      ∧ m.rms_dist.length = st.pred_arrays_list.length := by
  have hnil : ((distLoop oracle preds gts).filterMap Dist.toFin?).length = 0 := by
    rw [filterMap_toFin_eq_nil hall]
    rfl
  have hN : (distLoop oracle preds gts).length = st.pred_arrays_list.length := by
    rw [distLoop_length oracle (by rw [mapExcept_length hp, mapExcept_length hg, hlen]),
      mapExcept_length hp]
  refine ⟨aggregate (distLoop oracle preds gts), ?_, ?_, ?_⟩
  · rw [get_metrics_ok oracle st hlen hp hg]
  · rw [aggregate_rms_sentinel _ hnil, hN]
  · rw [aggregate_rms_sentinel _ hnil, hN, List.length_replicate]

/-- Witness for C6: one valid pair, oracle reports no match, so the single
distance is `inf` and `rms_dist = [10.0]`. -/
theorem c6_witness :
    ∃ m : Metrics, (get_metrics oracleNone stGoodPair).2 = Except.ok m
      ∧ m.rms_dist = List.replicate stGoodPair.pred_arrays_list.length (10 : ℚ)
      ∧ m.rms_dist.length = stGoodPair.pred_arrays_list.length :=
  c6_all_unmatched_sentinel oracleNone stGoodPair rfl rfl rfl (by decide)

/-- C7: when at least one pair has a finite distance, `rms_dist` is exactly
the list of finite distances in their original relative order (`filterMap` of
the per-pair distance list), whose length is the number M of finite entries
(stated under the hypothesis that conversion itself succeeded). -/
theorem c7_finite_distances_kept (oracle : Oracle) (st : EvalState)
    {preds gts : List PyStructure}
    (hlen : st.pred_arrays_list.length = st.gt_arrays_list.length)
    (hp : mapExcept array_dict_to_structure st.pred_arrays_list = Except.ok preds)
    (hg : mapExcept array_dict_to_structure st.gt_arrays_list = Except.ok gts)
    (hM : 1 ≤ (distLoop oracle preds gts).countP (fun d => !d.isInf)) :
    ∃ m : Metrics, (get_metrics oracle st).2 = Except.ok m
      ∧ m.rms_dist = (distLoop oracle preds gts).filterMap Dist.toFin?
      ∧ m.rms_dist.length = (distLoop oracle preds gts).countP (fun d => !d.isInf) := by
  have hne : ¬ ((distLoop oracle preds gts).filterMap Dist.toFin?).length = 0 := by
    rw [length_filterMap_toFin]
    omega
  refine ⟨aggregate (distLoop oracle preds gts), ?_, ?_, ?_⟩
  · rw [get_metrics_ok oracle st hlen hp hg]
  · rw [aggregate_rms_finite _ hne]
  · rw [aggregate_rms_finite _ hne, length_filterMap_toFin]

/-- Witness for C7: one valid pair, oracle returns the tuple (3/2, 2), so
`rms_dist = [3/2]`. -/
theorem c7_witness :
    ∃ m : Metrics, (get_metrics oracleHit stGoodPair).2 = Except.ok m
      ∧ m.rms_dist = (distLoop oracleHit [goodStruct] [goodStruct]).filterMap Dist.toFin?
      ∧ m.rms_dist.length =
          (distLoop oracleHit [goodStruct] [goodStruct]).countP (fun d => !d.isInf) :=
  c7_finite_distances_kept oracleHit stGoodPair rfl rfl rfl (by decide)

/-- C8: `clear` followed by `get_metrics` on the resulting empty pair lists is
well defined - no exception - and returns an empty `match_rate` and an empty
`rms_dist` (the sentinel list `[10.0] * 0` is empty). -/
theorem c8_clear_then_metrics_empty (oracle : Oracle) (st : EvalState) :
    get_metrics oracle (clear st) =
      ({ clear st with rms_dists := some [] }, Except.ok ⟨[], []⟩) := rfl

/-- C9: a second `get_metrics` call on the state left by the first, with no
intervening append or clear, returns the same metrics: the call only reads the
two bundle lists, which it never mutates, and the modelled oracle is a
function, hence deterministic. -/
theorem c9_get_metrics_idempotent (oracle : Oracle) (st : EvalState) :
    (get_metrics oracle (get_metrics oracle st).1).2 = (get_metrics oracle st).2 :=
  get_metrics_snd_congr oracle (get_metrics oracle st).1 st
    (get_metrics_fst_arrays oracle st).1 (get_metrics_fst_arrays oracle st).2

/-- C10: the report builder demands positional `sample_idx` agreement: if the
table is produced at all, the ground-truth and prediction structures agree on
`sample_idx` at every row index; and when the structures at the head disagree,
the builder stops with an `AssertionError` instead of producing rows. -/
theorem c10_table_requires_sample_idx (fmt2 : ℚ → String)
    (render : PyStructure → Except Unit ℤ) (current_epoch : ℤ) (st : EvalState) :
    (∀ rows, get_wandb_table fmt2 render current_epoch st = Except.ok rows →
      ∀ i g p, st.gt_mof_list.get? i = some g → st.pred_mof_list.get? i = some p →
        g.sample_idx = p.sample_idx)
    ∧ (∀ g p gs ps, st.gt_mof_list = g :: gs → st.pred_mof_list = p :: ps →
        ¬ g.sample_idx = p.sample_idx →
        get_wandb_table fmt2 render current_epoch st = Except.error PyErr.assertionError) := by
  constructor
  · intro rows h i g p hgi hpi
    unfold get_wandb_table at h
    have hi : i < st.pred_mof_list.length := get?_some_lt hpi
    obtain ⟨row, hrow⟩ := mapExcept_ok_mem h i (List.mem_range.mpr hi)
    have hform : rowAt fmt2 render current_epoch st i =
        (if g.sample_idx = p.sample_idx then
          rowBody fmt2 render current_epoch st i g p
        else Except.error PyErr.assertionError) := by
      unfold rowAt
      rw [listIndex_of_get? hgi, listIndex_of_get? hpi]
    rw [hform] at hrow
    by_cases heq : g.sample_idx = p.sample_idx
    · exact heq
    · rw [if_neg heq] at hrow
      cases hrow
  · intro g p gs ps hg hp hne
    have h0 : rowAt fmt2 render current_epoch st 0 = Except.error PyErr.assertionError := by
      unfold rowAt
      have hg0 : listIndex st.gt_mof_list 0 = Except.ok g := by
        unfold listIndex
        rw [hg]
        rfl
      have hp0 : listIndex st.pred_mof_list 0 = Except.ok p := by
        unfold listIndex
        rw [hp]
        rfl
      rw [hg0, hp0]
      show (if g.sample_idx = p.sample_idx then
          rowBody fmt2 render current_epoch st 0 g p
        else Except.error PyErr.assertionError) = Except.error PyErr.assertionError
      rw [if_neg hne]
    unfold get_wandb_table
    rw [hp, List.length_cons, List.range_succ_eq_map]
    unfold mapExcept
    rw [h0]

/-- Witness for C10: a scored one-pair state whose structure lists carry
sample indices 7 and 42 makes the builder abort with the assertion. -/
theorem c10_witness :
    get_wandb_table fmt0 render0 0 stBadIdx = Except.error PyErr.assertionError :=
  (c10_table_requires_sample_idx fmt0 render0 0 stBadIdx).2 goodStruct7 goodStruct [] []
    rfl rfl (by decide)

end MOFRecon
